import Mathlib

/-
Verification development for the ms3 "Actions Service" repository.

The definitions below are a shallow embedding of the Python sources:
  - src/models/task.py                (data model: enums, message and create schemas)
  - src/services/classification_handler.py
                                      (push-webhook pipeline and text heuristics)
  - src/resources/classifications.py  (pull-sync pipeline, sync_classifications)
  - src/services/database.py          (connection pool and repository operations)
  - src/resources/tasks.py, todo.py, followup.py
                                      (HTTP list-endpoint query-parameter bounds)

Strings are modelled as lists of characters (Python `str`), restricted to the
ASCII behaviour of `str.lower` / `str.upper` / `\d` / `\b`, which is what every
input in this service's domain uses.  The MySQL store is modelled as in-memory
lists of rows; network calls (message enrichment, pool creation, connection
checkout) are modelled as explicit oracle parameters so that both success and
failure behaviours of the source are representable.
-/

namespace MS3

/-- Python strings are modelled as lists of characters. -/
abbrev Str := List Char

/-- The whitespace characters removed by Python `str.strip()`. -/
def pyIsSpace (c : Char) : Bool :=
  c = ' ' || c = '\t' || c = '\n' || c = '\r' || c = '\x0b' || c = '\x0c'

/-- Python `str.strip()`: drop whitespace from both ends. -/
def stripStr (s : Str) : Str :=
  ((s.dropWhile pyIsSpace).reverse.dropWhile pyIsSpace).reverse

/-- Python `str.lower()` (ASCII fragment, matching `Char.toLower`). -/
def lowerStr (s : Str) : Str := s.map Char.toLower

/-- Python `sub in s` substring test. -/
def isSubstrOf (sub : Str) : Str → Bool
  | [] => sub.isEmpty
  | c :: t => sub.isPrefixOf (c :: t) || isSubstrOf sub t

/-! ## Title cleanup — `ClassificationHandler._clean_task_title`
    (src/services/classification_handler.py lines 129-151) -/

inductive TaskStatus where
  | open_
  | done
deriving DecidableEq, Repr

inductive MessageType where
  | email
  | slack
deriving DecidableEq, Repr

inductive Classification where
  | todo
  | followup
  | noise
deriving DecidableEq, Repr

/-- `prefixes_to_remove` from `_clean_task_title`. -/
def prefixesToRemove : List Str :=
  [("task:").data, ("todo:").data, ("action item:").data,
   ("follow up:").data, ("followup:").data, ("reply to").data]

/-- The `for prefix in prefixes_to_remove` loop of `_clean_task_title`:
    each listed marker is stripped (then re-`strip()`ped) at most once, in
    list order, whenever the current text starts with it case-insensitively. -/
def removePrefixes (t : Str) : Str :=
  prefixesToRemove.foldl
    (fun ct p => if p.isPrefixOf (lowerStr ct) then stripStr (ct.drop p.length) else ct) t

/-- The followup branch of `_clean_task_title`: prepend `"Reply: "` unless the
    text already starts with `reply` case-insensitively. -/
def replyAdjust (t : Str) (classification : Classification) : Str :=
  if classification = Classification.followup then
    if ("reply").data.isPrefixOf (lowerStr t) then t else ("Reply: ").data ++ t
  else t

/-- `clean_text[0].upper() + clean_text[1:]` guarded by `if clean_text:`. -/
def capFirst (t : Str) : Str :=
  match t with
  | [] => []
  | c :: cs => c.toUpper :: cs

/-- `if len(clean_text) > 200: clean_text = clean_text[:197] + "..."`. -/
def truncate200 (t : Str) : Str :=
  if 200 < t.length then t.take 197 ++ ("...").data else t

/-- `ClassificationHandler._clean_task_title`, composing the four steps in
    source order: strip, marker removal, followup Reply-prefixing,
    capitalisation, truncation. -/
def cleanTaskTitle (task_text : Str) (classification : Classification) : Str :=
  truncate200 (capFirst (replyAdjust (removePrefixes (stripStr task_text)) classification))

/-! ## Due-date extraction — `ClassificationHandler._extract_due_date`
    (src/services/classification_handler.py lines 104-127), with the keyword
    table from `ClassificationHandler.__init__` (lines 16-26). -/

/-- `self.due_date_keywords`, in Python dict insertion order. -/
def dueDateKeywords : List (Str × Nat) :=
  [(("today").data, 0), (("tomorrow").data, 1), (("asap").data, 0), (("urgent").data, 0),
   (("this week").data, 7), (("next week").data, 14), (("eod").data, 0), (("eow").data, 7)]

/-- The `for keyword, days_offset in self.due_date_keywords.items()` scan:
    first keyword contained in the (lowercased) text wins. -/
def firstKeywordHit (task_lower : Str) : List (Str × Nat) → Option Nat
  | [] => none
  | (k, off) :: rest => if isSubstrOf k task_lower then some off else firstKeywordHit task_lower rest

/-- The value of `datetime.now()` during one `_extract_due_date` call:
    calendar year/month/day plus an opaque time-of-day count (`tod = 0` is
    midnight, so `datetime(year, month, day)` has `tod = 0`). -/
structure Instant where
  year : Int
  month : Nat
  day : Nat
  tod : Nat
deriving DecidableEq, Repr

/-- A due date as produced by `_extract_due_date`: either
    `datetime.now() + timedelta(days=n)` (keyword branch) or the midnight
    `datetime(year, month, day)` (numeric `M/D` branch). -/
inductive DueDate where
  | fromNow (days : Nat)
  | onDate (year : Int) (month day : Nat)
deriving DecidableEq, Repr

def isLeapYear (y : Int) : Bool :=
  y % 4 = 0 && (y % 100 ≠ 0 || y % 400 = 0)

def daysInMonth (y : Int) (m : Nat) : Nat :=
  if m = 2 then (if isLeapYear y then 29 else 28)
  else if m = 4 || m = 6 || m = 9 || m = 11 then 30
  else 31

/-- Whether `datetime(y, m, d)` constructs without raising `ValueError`. -/
def validDate (y : Int) (m d : Nat) : Bool :=
  1 ≤ y && y ≤ 9999 && 1 ≤ m && m ≤ 12 && 1 ≤ d && d ≤ daysInMonth y m

/-- `datetime(now.year, m, d) < datetime.now()` — the years coincide, so the
    comparison is lexicographic on month, day and time-of-day. -/
def beforeNow (now : Instant) (m d : Nat) : Bool :=
  m < now.month || (m = now.month && (d < now.day || (d = now.day && 0 < now.tod)))

/-- `\w` (ASCII fragment): letters, digits and underscore. -/
def isWordChar (c : Char) : Bool := c.isAlphanum || c = '_'

def digitVal (c : Char) : Nat := c.toNat - 48

/-- Candidate parses of `\d{1,2}` at the head of `l`, in the greedy
    (two-digit first) backtracking order of `re`. -/
def digitCands (l : Str) : List (Nat × Str) :=
  match l with
  | [] => []
  | [a] => if a.isDigit then [(digitVal a, [])] else []
  | a :: b :: rest =>
    if a.isDigit then
      if b.isDigit then [(digitVal a * 10 + digitVal b, rest), (digitVal a, b :: rest)]
      else [(digitVal a, b :: rest)]
    else []

/-- `\b` immediately after the day group: end of string or a non-word char. -/
def boundaryAfter (rest : Str) : Bool :=
  match rest with
  | [] => true
  | c :: _ => !isWordChar c

/-- Attempt to match `\d{1,2}/\d{1,2}\b` starting exactly at the head of `l`
    (the leading `\b` is checked by the caller). -/
def matchSlashAt (l : Str) : Option (Nat × Nat) :=
  (digitCands l).findSome? fun md =>
    match md.2 with
    | '/' :: rest2 =>
      (digitCands rest2).findSome? fun dd =>
        if boundaryAfter dd.2 then some (md.1, dd.1) else none
    | _ => none

/-- `re.search(r'\b(\d{1,2})/(\d{1,2})\b', text)`: leftmost match wins;
    `prev` is the character before the current position (`none` at the start),
    used for the leading word boundary. -/
def searchMD : Option Char → Str → Option (Nat × Nat)
  | _, [] => none
  | prev, c :: rest =>
    let okStart := match prev with
      | none => true
      | some p => !isWordChar p
    match (if okStart then matchSlashAt (c :: rest) else none) with
    | some r => some r
    | none => searchMD (some c) rest

/-- `ClassificationHandler._extract_due_date`. -/
def extractDueDate (now : Instant) (task_text : Str) : Option DueDate :=
  let task_lower := lowerStr task_text
  match firstKeywordHit task_lower dueDateKeywords with
  | some off => some (DueDate.fromNow off)
  | none =>
    match searchMD none task_text with
    | some md =>
      let year := now.year
      if validDate year md.1 md.2 then
        if beforeNow now md.1 md.2 then
          if validDate (year + 1) md.1 md.2 then some (DueDate.onDate (year + 1) md.1 md.2)
          else none
        else some (DueDate.onDate year md.1 md.2)
      else none
    | none => none

/-! ## Data model — src/models/task.py -/

/-- `IncomingMessage` after pydantic validation (the webhook input schema):
    `priority` carries `Field(ge=1, le=5)`. -/
structure IncomingMessage where
  id : Str
  type : MessageType
  subject : Option Str
  sender : Str
  classification : Classification
  task : Str
  priority : Int
deriving DecidableEq, Repr

/-- A raw webhook JSON object before validation (`msg_data` in
    `process_classifications`); absent keys are `none`. -/
structure RawMessage where
  id : Option Str
  type : Option Str
  subject : Option Str
  sender : Option Str
  classification : Option Str
  task : Option Str
  priority : Option Int
deriving DecidableEq, Repr

def MessageType.ofString (s : Str) : Option MessageType :=
  if s = ("email").data then some MessageType.email
  else if s = ("slack").data then some MessageType.slack
  else none

def Classification.ofString (s : Str) : Option Classification :=
  if s = ("todo").data then some Classification.todo
  else if s = ("followup").data then some Classification.followup
  else if s = ("noise").data then some Classification.noise
  else none

/-- `IncomingMessage(**msg_data)`: pydantic validation.  All required fields
    must be present, `type` and `classification` must be members of their
    enums, and `priority` must satisfy `ge=1, le=5`; otherwise the
    constructor raises and `process_classifications` skips the record. -/
def parseIncomingMessage (m : RawMessage) : Option IncomingMessage :=
  match m.id, m.type, m.sender, m.classification, m.task, m.priority with
  | some i, some ty, some sd, some cl, some tk, some p =>
    match MessageType.ofString ty, Classification.ofString cl with
    | some ty', some cl' =>
      if 1 ≤ p ∧ p ≤ 5 then some ⟨i, ty', m.subject, sd, cl', tk, p⟩ else none
    | _, _ => none
  | _, _, _, _, _, _ => none

/-- The common shape of `TaskCreate`, `TodoCreate` and `FollowupCreate`
    (identical field lists in src/models/task.py).  Both pipelines construct
    values whose `priority` already satisfies the schemas' `ge=1, le=5`
    bound (proved below), so the pydantic check never fires for them.
    `cls_id` passed by the sync path is not a declared field and is silently
    dropped by pydantic; it is therefore not modelled. -/
structure WorkItemCreate where
  user_id : Int
  source_msg_id : Str
  title : Str
  status : TaskStatus
  due_at : Option DueDate
  priority : Int
  message_type : MessageType
  sender : Str
  subject : Option Str
deriving DecidableEq, Repr

/-! ## Push-webhook pipeline —
    `ClassificationHandler.process_classifications`
    (src/services/classification_handler.py lines 28-102) -/

/-- The `result` dictionary accumulated by `process_classifications`. -/
structure ProcessResult where
  tasks : List WorkItemCreate
  todos : List WorkItemCreate
  followups : List WorkItemCreate
deriving DecidableEq, Repr

/-- The value built by the `TodoCreate(...)` / `FollowupCreate(...)` /
    `TaskCreate(...)` calls of `process_classifications` — the three
    constructor calls pass the identical field list, with `due_at` and
    `clean_title` derived by the text heuristics. -/
def webhookItem (now : Instant) (user_id : Int) (message : IncomingMessage) :
    WorkItemCreate :=
  ⟨user_id, message.id, cleanTaskTitle message.task message.classification,
   TaskStatus.open_, extractDueDate now message.task, message.priority,
   message.type, message.sender, message.subject⟩

/-- One iteration of the `for msg_data in messages` loop. -/
def processOne (now : Instant) (user_id : Int) (result : ProcessResult)
    (msg_data : RawMessage) : ProcessResult :=
  match parseIncomingMessage msg_data with
  | none => result
  | some message =>
    if message.classification = Classification.noise then result
    else
      let item := webhookItem now user_id message
      if message.classification = Classification.todo then
        { result with todos := result.todos ++ [item] }
      else if message.classification = Classification.followup then
        { result with followups := result.followups ++ [item] }
      else
        { result with tasks := result.tasks ++ [item] }

/-- `ClassificationHandler.process_classifications`. -/
def processClassifications (now : Instant) (messages : List RawMessage)
    (user_id : Int) : ProcessResult :=
  messages.foldl (processOne now user_id) ⟨[], [], []⟩

/-! ## Connection pool and repositories — `DatabaseManager`
    (src/services/database.py).

    Pool creation (`MySQLConnectionPool(**config)`) and connection checkout
    (`pool.get_connection()`) depend on the environment; they are modelled by
    the oracles `attempt` (whether the k-th pool-creation attempt succeeds)
    and `connOk` (whether checking a connection out of an existing pool
    succeeds).  The three MySQL tables are in-memory lists of rows; the SQL
    statements of the happy path are modelled by the corresponding list
    operations.  `created_at` / `updated_at` timestamps are not modelled. -/

/-- A stored row: auto-generated id (`cursor.lastrowid`) plus the item
    columns. -/
structure Row where
  id : Nat
  item : WorkItemCreate
deriving DecidableEq, Repr

/-- The column defaults of the INSERT: `task.priority or 1` replaces a falsy
    (zero) priority; `status_value or "open"` and
    `message_type_value or "email"` never fire because the enum value strings
    are non-empty. -/
def storedItem (t : WorkItemCreate) : WorkItemCreate :=
  { t with priority := if t.priority = 0 then 1 else t.priority }

structure DBState where
  pool : Option Unit
  attempt : Nat → Bool
  connOk : Bool
  tasks : List Row
  todos : List Row
  followups : List Row
  nextId : Nat

/-- `self.max_retries`. -/
def maxRetries : Nat := 3

/-- The recursive retry of `_initialize_pool`: attempt pool creation at
    `retry_count`; on failure retry while `retry_count < self.max_retries - 1`,
    else leave the pool absent.  The guard is carried as the structurally
    decreasing count `fuel = max_retries - 1 - retry_count` of retries still
    permitted.  (`time.sleep(self.retry_delay)` has no modelled effect.) -/
def initFromAux (attempt : Nat → Bool) (retry_count fuel : Nat) : Option Unit :=
  if attempt retry_count then some ()
  else
    match fuel with
    | 0 => none
    | f + 1 => initFromAux attempt (retry_count + 1) f

/-- `_initialize_pool(retry_count)`'s retry chain, with the retry budget
    spelt out from `retry_count`. -/
def initFrom (attempt : Nat → Bool) (retry_count : Nat) : Option Unit :=
  initFromAux attempt retry_count (maxRetries - 1 - retry_count)

/-- `_initialize_pool()` called with the default `retry_count=0`: a no-op
    when a pool already exists. -/
def DBState.initializePool (db : DBState) : DBState :=
  match db.pool with
  | some _ => db
  | none => { db with pool := initFrom db.attempt 0 }

/-- `_get_connection`: lazily initialize the pool; return `None` when it is
    still absent; otherwise check a connection out (`connOk`), and on a
    checkout error drop the pool, reinitialize it and try once more. -/
def DBState.getConnection (db : DBState) : Option Unit × DBState :=
  let db1 := match db.pool with
    | none => db.initializePool
    | some _ => db
  match db1.pool with
  | none => (none, db1)
  | some _ =>
    if db1.connOk then (some (), db1)
    else
      let db2 := DBState.initializePool { db1 with pool := none }
      match db2.pool with
      | none => (none, db2)
      | some _ => if db2.connOk then (some (), db2) else (none, db2)

/-- Accessor pair for one of the three structurally identical tables. -/
structure TableLens where
  get : DBState → List Row
  set : DBState → List Row → DBState

def tasksTable : TableLens := ⟨(fun db => db.tasks), fun db l => { db with tasks := l }⟩

def todosTable : TableLens := ⟨(fun db => db.todos), fun db l => { db with todos := l }⟩

def followupsTable : TableLens := ⟨(fun db => db.followups), fun db l => { db with followups := l }⟩

/-- `create_task` / `create_todo` / `create_followup`: `None` when no
    connection is available, otherwise INSERT and return the generated id. -/
def createIn (T : TableLens) (db : DBState) (t : WorkItemCreate) : Option Nat × DBState :=
  match db.getConnection with
  | (none, db1) => (none, db1)
  | (some _, db1) =>
    let rid := db1.nextId
    (some rid, { T.set db1 (T.get db1 ++ [⟨rid, storedItem t⟩]) with nextId := rid + 1 })

/-- `get_task` / `get_todo` / `get_followup`: single-row fetch by id,
    `None` when no connection is available or the row is absent. -/
def getByIdIn (T : TableLens) (db : DBState) (rid : Nat) : Option Row × DBState :=
  match db.getConnection with
  | (none, db1) => (none, db1)
  | (some _, db1) => ((T.get db1).find? (fun r => r.id == rid), db1)

/-- The shape shared by `TaskUpdate`, `TodoUpdate` and `FollowupUpdate`. -/
structure WorkItemUpdate where
  title : Option Str
  status : Option TaskStatus
  due_at : Option DueDate
  priority : Option Int
deriving DecidableEq, Repr

def applyUpdate (u : WorkItemUpdate) (it : WorkItemCreate) : WorkItemCreate :=
  { it with
    title := u.title.getD it.title,
    status := u.status.getD it.status,
    due_at := (match u.due_at with | some d => some d | none => it.due_at),
    priority := u.priority.getD it.priority }

/-- `update_task` / `update_todo` / `update_followup`: `False` when no
    connection is available or no field was provided; otherwise apply the
    provided fields to the matching row and report whether a row matched
    (`cursor.rowcount > 0`; the unmodelled always-stamped `updated_at`
    makes every matched row a changed row). -/
def updateIn (T : TableLens) (db : DBState) (rid : Nat) (u : WorkItemUpdate) :
    Bool × DBState :=
  match db.getConnection with
  | (none, db1) => (false, db1)
  | (some _, db1) =>
    if u.title = none ∧ u.status = none ∧ u.due_at = none ∧ u.priority = none then
      (false, db1)
    else
      let hit := (T.get db1).any (fun r => r.id == rid)
      (hit, T.set db1 ((T.get db1).map
        (fun r => if r.id == rid then ⟨r.id, applyUpdate u r.item⟩ else r)))

/-- `delete_task` / `delete_todo` / `delete_followup`. -/
def deleteIn (T : TableLens) (db : DBState) (rid : Nat) : Bool × DBState :=
  match db.getConnection with
  | (none, db1) => (false, db1)
  | (some _, db1) =>
    let hit := (T.get db1).any (fun r => r.id == rid)
    (hit, T.set db1 ((T.get db1).filter (fun r => !(r.id == rid))))

/-- A symbolic stand-in for MySQL `ORDER BY due_at ASC` on the symbolic
    `DueDate` values (`NULL`s first, as MySQL sorts them ascending).  No
    claim depends on this ordering. -/
def dueLe (a b : Option DueDate) : Bool :=
  match a, b with
  | none, _ => true
  | some _, none => false
  | some (DueDate.fromNow x), some (DueDate.fromNow y) => x ≤ y
  | some (DueDate.fromNow _), some (DueDate.onDate _ _ _) => true
  | some (DueDate.onDate _ _ _), some (DueDate.fromNow _) => false
  | some (DueDate.onDate y1 m1 d1), some (DueDate.onDate y2 m2 d2) =>
    y1 < y2 || (y1 = y2 && (m1 < m2 || (m1 = m2 && d1 ≤ d2)))

/-- `ORDER BY priority DESC, due_at ASC`. -/
def rowSortLe (a b : Row) : Bool :=
  b.item.priority < a.item.priority ||
    (a.item.priority = b.item.priority && dueLe a.item.due_at b.item.due_at)

def insertRow (a : Row) : List Row → List Row
  | [] => [a]
  | b :: l => if rowSortLe a b then a :: b :: l else b :: insertRow a l

def sortRows : List Row → List Row
  | [] => []
  | a :: l => insertRow a (sortRows l)

/-- The WHERE clause of `get_tasks` / `get_todos` / `get_followups`:
    `user_id = %s`, plus `status = %s` when a status is given, plus
    `priority >= %s` when `min_priority` is truthy (Python `if min_priority:`
    skips the filter for `0`). -/
def matchesFilters (user_id : Int) (status : Option TaskStatus)
    (min_priority : Option Int) (r : Row) : Bool :=
  decide (r.item.user_id = user_id)
  && (match status with
      | some s => decide (r.item.status = s)
      | none => true)
  && (match min_priority with
      | some p => if p = 0 then true else decide (p ≤ r.item.priority)
      | none => true)

/-- `get_tasks` / `get_todos` / `get_followups` (filtered, paginated list):
    `([], 0)` when no connection is available, else the count of all
    filtered rows and the `LIMIT limit OFFSET offset` page of the sorted
    filtered rows.  The Python defaults are `limit=10, offset=0`. -/
def listIn (T : TableLens) (db : DBState) (user_id : Int)
    (status : Option TaskStatus) (min_priority : Option Int)
    (limit offset : Nat) : (List Row × Nat) × DBState :=
  match db.getConnection with
  | (none, db1) => (([], 0), db1)
  | (some _, db1) =>
    let filtered := (T.get db1).filter (matchesFilters user_id status min_priority)
    (((sortRows filtered).drop offset |>.take limit, filtered.length), db1)

def DBState.create_task (db : DBState) (t : WorkItemCreate) : Option Nat × DBState :=
  createIn tasksTable db t

def DBState.get_task (db : DBState) (rid : Nat) : Option Row × DBState :=
  getByIdIn tasksTable db rid

def DBState.get_tasks (db : DBState) (user_id : Int) (status : Option TaskStatus)
    (min_priority : Option Int) (limit offset : Nat) : (List Row × Nat) × DBState :=
  listIn tasksTable db user_id status min_priority limit offset

def DBState.update_task (db : DBState) (rid : Nat) (u : WorkItemUpdate) : Bool × DBState :=
  updateIn tasksTable db rid u

def DBState.delete_task (db : DBState) (rid : Nat) : Bool × DBState :=
  deleteIn tasksTable db rid

def DBState.create_todo (db : DBState) (t : WorkItemCreate) : Option Nat × DBState :=
  createIn todosTable db t

def DBState.get_todo (db : DBState) (rid : Nat) : Option Row × DBState :=
  getByIdIn todosTable db rid

def DBState.get_todos (db : DBState) (user_id : Int) (status : Option TaskStatus)
    (min_priority : Option Int) (limit offset : Nat) : (List Row × Nat) × DBState :=
  listIn todosTable db user_id status min_priority limit offset

def DBState.update_todo (db : DBState) (rid : Nat) (u : WorkItemUpdate) : Bool × DBState :=
  updateIn todosTable db rid u

def DBState.delete_todo (db : DBState) (rid : Nat) : Bool × DBState :=
  deleteIn todosTable db rid

def DBState.create_followup (db : DBState) (t : WorkItemCreate) : Option Nat × DBState :=
  createIn followupsTable db t

def DBState.get_followup (db : DBState) (rid : Nat) : Option Row × DBState :=
  getByIdIn followupsTable db rid

def DBState.get_followups (db : DBState) (user_id : Int) (status : Option TaskStatus)
    (min_priority : Option Int) (limit offset : Nat) : (List Row × Nat) × DBState :=
  listIn followupsTable db user_id status min_priority limit offset

def DBState.update_followup (db : DBState) (rid : Nat) (u : WorkItemUpdate) : Bool × DBState :=
  updateIn followupsTable db rid u

def DBState.delete_followup (db : DBState) (rid : Nat) : Bool × DBState :=
  deleteIn followupsTable db rid

/-! ## Pull-sync pipeline — `sync_classifications`
    (src/resources/classifications.py lines 80-228).

    The upstream classification fetch and the user-id hashing happen before
    the per-record loop and are inputs here (`classifications`,
    `db_user_id`).  Message enrichment
    (`integrations_client.get_message(msg_id)`) is the oracle `enrich`:
    `none` covers every failure mode — `get_message` itself returns `None`
    on 404/timeout/HTTP errors, and any exception it raises is caught by the
    surrounding `try/except` with `message` left `None` either way. -/

/-- One upstream classification record; absent dict keys are `none`
    (the code reads them with `cls.get(..., default)`). -/
structure ClsRecord where
  label : Option Str
  cls_id : Option Str
  msg_id : Option Str
  priority : Option Int
deriving DecidableEq, Repr

/-- An `EnrichedMessage` JSON object from the integrations service. -/
structure EnrichedMsg where
  sender : Option Str
  subject : Option Str
  body : Option Str
  type : Option Str
deriving DecidableEq, Repr

/-- Python truthiness of `message.get(key)` for a string value. -/
def truthy (o : Option Str) : Bool :=
  match o with
  | some s => !s.isEmpty
  | none => false

/-- `priority_1_5 = min(max(priority // 2, 1), 5)` — Python `//` is floor
    division, `Int.fdiv`. -/
def priorityMap (priority : Int) : Int :=
  min (max (priority.fdiv 2) 1) 5

/-- The `TaskCreate` / `FollowupCreate` value built for one record in
    `sync_classifications`: priority mapping, best-effort enrichment, and
    title derivation (`subject` if truthy, else first 100 chars of `body`
    with a `...` marker when longer, else a default naming the first 8 chars
    of `cls_id`).  `due_at` is not passed and defaults to `None`. -/
def syncItem (enrich : Str → Option EnrichedMsg) (db_user_id : Int)
    (cls : ClsRecord) : WorkItemCreate :=
  let cls_id := cls.cls_id.getD []
  let msg_id := cls.msg_id.getD []
  let priority := cls.priority.getD 1
  let priority_1_5 := priorityMap priority
  let message := enrich msg_id
  let sender := match message with
    | some m => m.sender.getD []
    | none => []
  let subject := match message with
    | some m => m.subject
    | none => none
  let message_type_str := match message with
    | some m => m.type.getD ("email").data
    | none => ("email").data
  let message_type :=
    if lowerStr message_type_str = ("email").data then MessageType.email
    else MessageType.slack
  let title :=
    if truthy (message.bind (fun m => m.subject)) then
      (message.bind (fun m => m.subject)).getD []
    else if truthy (message.bind (fun m => m.body)) then
      let body := (message.bind (fun m => m.body)).getD []
      body.take 100 ++ (if 100 < body.length then ("...").data else [])
    else ("Task from classification ").data ++ cls_id.take 8
  ⟨db_user_id, msg_id, title, TaskStatus.open_, none, priority_1_5,
   message_type, sender, subject⟩

/-- The mutable state of the `for cls in classifications` loop. -/
structure SyncState where
  db : DBState
  tasks_created : Nat
  followups_created : Nat
  errors : List Str

/-- One iteration of the per-record loop: skip `noise`, create a Task for
    `todo`, a Followup for `followup` (counting successes and recording
    persistence failures), and fall through with no effect for any other
    label.  The labels are lowercased first.  The `except` arm of the loop
    is unreachable here: enrichment failures are already absorbed by the
    inner `try`, and the constructed priority is always within the schema
    bound (proved below). -/
def syncStep (enrich : Str → Option EnrichedMsg) (db_user_id : Int)
    (st : SyncState) (cls : ClsRecord) : SyncState :=
  let label := lowerStr (cls.label.getD [])
  let cls_id := cls.cls_id.getD []
  if label = ("noise").data then st
  else if label = ("todo").data then
    let task := syncItem enrich db_user_id cls
    let r := st.db.create_task task
    match r.1 with
    | some tid =>
      if tid ≠ 0 then { st with db := r.2, tasks_created := st.tasks_created + 1 }
      else { st with
             db := r.2,
             errors := st.errors ++ [("Failed to create task for classification ").data ++ cls_id] }
    | none =>
      { st with
        db := r.2,
        errors := st.errors ++ [("Failed to create task for classification ").data ++ cls_id] }
  else if label = ("followup").data then
    let followup := syncItem enrich db_user_id cls
    let r := st.db.create_followup followup
    match r.1 with
    | some fid =>
      if fid ≠ 0 then { st with db := r.2, followups_created := st.followups_created + 1 }
      else { st with
             db := r.2,
             errors := st.errors ++ [("Failed to create followup for classification ").data ++ cls_id] }
    | none =>
      { st with
        db := r.2,
        errors := st.errors ++ [("Failed to create followup for classification ").data ++ cls_id] }
  else st

/-- The aggregate returned by the sync entry point (an empty fetch returns
    the same zero counts through the early `if not classifications:`
    branch, so both code paths are covered by one definition). -/
structure SyncResult where
  classifications_processed : Nat
  tasks_created : Nat
  followups_created : Nat
  errors : List Str
  db : DBState

/-- `sync_classifications`: the per-record loop over the fetched records,
    plus the aggregate counts. -/
def syncClassifications (enrich : Str → Option EnrichedMsg) (db_user_id : Int)
    (db : DBState) (classifications : List ClsRecord) : SyncResult :=
  let final := classifications.foldl (syncStep enrich db_user_id) ⟨db, 0, 0, []⟩
  ⟨classifications.length, final.tasks_created, final.followups_created,
   final.errors, final.db⟩

/-! ## List-endpoint query bounds — `GET /tasks`, `GET /todo`, `GET /followup`
    (src/resources/tasks.py lines 57-58, todo.py lines 53-54,
    followup.py lines 55-56).

    FastAPI binds `limit: int = Query(100, ge=1, le=1000)` and
    `offset: int = Query(0, ge=0)` before the handler runs: an absent
    parameter takes the default, an out-of-range one is rejected (422). -/

def validateLimit (raw : Option Int) : Option Int :=
  match raw with
  | none => some 100
  | some v => if 1 ≤ v ∧ v ≤ 1000 then some v else none

def validateOffset (raw : Option Int) : Option Int :=
  match raw with
  | none => some 0
  | some v => if 0 ≤ v then some v else none

def listQueryParams (limit offset : Option Int) : Option (Int × Int) :=
  match validateLimit limit, validateOffset offset with
  | some l, some o => some (l, o)
  | _, _ => none

/-- The `limit` / `offset` binding of `GET /tasks` (src/resources/tasks.py). -/
def tasksListParams (limit offset : Option Int) : Option (Int × Int) :=
  listQueryParams limit offset

/-- The `limit` / `offset` binding of `GET /todo` (src/resources/todo.py). -/
def todosListParams (limit offset : Option Int) : Option (Int × Int) :=
  listQueryParams limit offset

/-- The `limit` / `offset` binding of `GET /followup`
    (src/resources/followup.py). -/
def followupsListParams (limit offset : Option Int) : Option (Int × Int) :=
  listQueryParams limit offset

/-! ## Helper lemmas -/

theorem toNat_ofNat_valid (n : Nat) (h : n < 55296) : (Char.ofNat n).toNat = n := by
  unfold Char.ofNat
  rw [dif_pos (Or.inl h)]
  rfl

/-- ASCII case mapping: lowering after uppering is lowering. -/
theorem toLower_toUpper (c : Char) : Char.toLower (Char.toUpper c) = Char.toLower c := by
  unfold Char.toUpper Char.toLower
  by_cases h : c.toNat ≥ 97 ∧ c.toNat ≤ 122
  · rw [if_pos h]
    have h1 : (Char.ofNat (c.toNat - 32)).toNat = c.toNat - 32 :=
      toNat_ofNat_valid _ (by omega)
    rw [h1]
    rw [if_pos (by omega), if_neg (by omega)]
    have h2 : c.toNat - 32 + 32 = c.toNat := by omega
    rw [h2, Char.ofNat_toNat]
  · simp only [if_neg h]

theorem toUpper_toUpper (c : Char) : Char.toUpper (Char.toUpper c) = Char.toUpper c := by
  unfold Char.toUpper
  by_cases h : c.toNat ≥ 97 ∧ c.toNat ≤ 122
  · rw [if_pos h]
    have h1 : (Char.ofNat (c.toNat - 32)).toNat = c.toNat - 32 :=
      toNat_ofNat_valid _ (by omega)
    rw [h1, if_neg (by omega)]
  · simp only [if_neg h]

theorem isPrefixOf_iff {l₁ l₂ : Str} : l₁.isPrefixOf l₂ = true ↔ l₁ <+: l₂ :=
  List.isPrefixOf_iff_prefix

/-- Inversion of pydantic validation: a successfully parsed webhook message
    has all required raw fields, its classification string maps to the
    parsed enum member, and its priority satisfies `ge=1, le=5`. -/
theorem parse_fields {m : RawMessage} {im : IncomingMessage}
    (hp : parseIncomingMessage m = some im) :
    (∃ cl, m.classification = some cl ∧
      Classification.ofString cl = some im.classification) ∧
    1 ≤ im.priority ∧ im.priority ≤ 5 := by
  rcases m with ⟨i, ty, sj, sd, cl, tk, p⟩
  unfold parseIncomingMessage at hp
  rcases i with _ | i <;> rcases ty with _ | ty <;> rcases sd with _ | sd <;>
    rcases cl with _ | cl <;> rcases tk with _ | tk <;> rcases p with _ | p <;>
      simp only [Option.some.injEq, reduceCtorEq] at hp
  rcases h1 : MessageType.ofString ty with _ | ty'
  · rw [h1] at hp
    exact absurd hp (by simp)
  · rcases h2 : Classification.ofString cl with _ | cl'
    · rw [h1, h2] at hp
      exact absurd hp (by simp)
    · rw [h1, h2] at hp
      dsimp only at hp
      by_cases hb : 1 ≤ p ∧ p ≤ 5
      · rw [if_pos hb] at hp
        injection hp with him
        subst him
        exact ⟨⟨cl, rfl, h2⟩, hb.1, hb.2⟩
      · rw [if_neg hb] at hp
        exact absurd hp (by simp)

/-- With a live pool and a healthy checkout, `_get_connection` hands out a
    connection and leaves the state unchanged. -/
theorem getConnection_available {db : DBState} (h1 : db.pool = some ())
    (h2 : db.connOk = true) : db.getConnection = (some (), db) := by
  unfold DBState.getConnection
  simp only [h1, h2, if_true]

theorem initFromAux_allFail {attempt : Nat → Bool} (h : ∀ k, attempt k = false) :
    ∀ rc fuel, initFromAux attempt rc fuel = none := by
  intro rc fuel
  induction fuel generalizing rc with
  | zero => simp [initFromAux, h]
  | succ f ih => simp [initFromAux, h, ih]

/-- When every pool-creation attempt fails, `_get_connection` returns
    `None`. -/
theorem getConnection_down {db : DBState} (hp : db.pool = none)
    (h : ∀ k, db.attempt k = false) : (db.getConnection).1 = none := by
  have hin : initFrom db.attempt 0 = none := initFromAux_allFail h 0 _
  unfold DBState.getConnection DBState.initializePool
  simp only [hp, hin]

theorem createIn_down (T : TableLens) (db : DBState) (t : WorkItemCreate)
    (h : (db.getConnection).1 = none) : (createIn T db t).1 = none := by
  unfold createIn
  rcases hgc : db.getConnection with ⟨c, db1⟩
  rw [hgc] at h
  simp only [] at h
  subst h
  simp

theorem getByIdIn_down (T : TableLens) (db : DBState) (rid : Nat)
    (h : (db.getConnection).1 = none) : (getByIdIn T db rid).1 = none := by
  unfold getByIdIn
  rcases hgc : db.getConnection with ⟨c, db1⟩
  rw [hgc] at h
  simp only [] at h
  subst h
  simp

theorem updateIn_down (T : TableLens) (db : DBState) (rid : Nat)
    (u : WorkItemUpdate) (h : (db.getConnection).1 = none) :
    (updateIn T db rid u).1 = false := by
  unfold updateIn
  rcases hgc : db.getConnection with ⟨c, db1⟩
  rw [hgc] at h
  simp only [] at h
  subst h
  simp

theorem deleteIn_down (T : TableLens) (db : DBState) (rid : Nat)
    (h : (db.getConnection).1 = none) : (deleteIn T db rid).1 = false := by
  unfold deleteIn
  rcases hgc : db.getConnection with ⟨c, db1⟩
  rw [hgc] at h
  simp only [] at h
  subst h
  simp

theorem listIn_down (T : TableLens) (db : DBState) (user_id : Int)
    (status : Option TaskStatus) (min_priority : Option Int) (limit offset : Nat)
    (h : (db.getConnection).1 = none) :
    (listIn T db user_id status min_priority limit offset).1 = ([], 0) := by
  unfold listIn
  rcases hgc : db.getConnection with ⟨c, db1⟩
  rw [hgc] at h
  simp only [] at h
  subst h
  simp

/-- With a live pool, `create_*` inserts the row with the next generated id
    and reports that id. -/
theorem createIn_available (T : TableLens) (db : DBState) (t : WorkItemCreate)
    (h1 : db.pool = some ()) (h2 : db.connOk = true) :
    createIn T db t =
      (some db.nextId,
       { T.set db (T.get db ++ [⟨db.nextId, storedItem t⟩]) with nextId := db.nextId + 1 }) := by
  unfold createIn
  rw [getConnection_available h1 h2]

/-! ## Concrete objects used by witnesses -/

def dbUp : DBState := ⟨some (), fun _ => true, true, [], [], [], 1⟩

def dbDown : DBState := ⟨none, fun _ => false, true, [], [], [], 1⟩

def stUp : SyncState := ⟨dbUp, 0, 0, []⟩

def enrichAbsent : Str → Option EnrichedMsg := fun _ => none

def itemSample : WorkItemCreate :=
  ⟨7, ("m1").data, ("t").data, TaskStatus.open_, none, 3, MessageType.email, [], none⟩

def clsTodo7 : ClsRecord :=
  ⟨some ("todo").data, some ("cls-abcdefgh").data, some ("m1").data, some 7⟩

/-! ## Claim theorems -/

/-- C1: every record the pull-sync entry point processes with integer
    priority `p` yields a Task / Followup whose persisted priority is
    `clamp(floor(p / 2), 1, 5)`; the mapped value lies in `[1, 5]` for every
    `p` in `[1, 10]`, with `1→1, 2→1, 3→1, 4→2, 10→5`. -/
theorem sync_priority_mapping :
    (∀ p : Int, priorityMap p = min (max (p.fdiv 2) 1) 5) ∧
    (∀ enrich uid cls,
      (syncItem enrich uid cls).priority = priorityMap ((cls.priority).getD 1)) ∧
    (∀ p : Int, 1 ≤ p → p ≤ 10 → 1 ≤ priorityMap p ∧ priorityMap p ≤ 5) ∧
    (priorityMap 1 = 1 ∧ priorityMap 2 = 1 ∧ priorityMap 3 = 1 ∧
      priorityMap 4 = 2 ∧ priorityMap 10 = 5) ∧
    (∀ enrich uid st cls, st.db.pool = some () → st.db.connOk = true →
      lowerStr ((cls.label).getD []) = ("todo").data →
      (syncStep enrich uid st cls).db.tasks
        = st.db.tasks ++ [⟨st.db.nextId, storedItem (syncItem enrich uid cls)⟩]) ∧
    (∀ enrich uid st cls, st.db.pool = some () → st.db.connOk = true →
      lowerStr ((cls.label).getD []) = ("followup").data →
      (syncStep enrich uid st cls).db.followups
        = st.db.followups ++ [⟨st.db.nextId, storedItem (syncItem enrich uid cls)⟩]) ∧
    (∀ enrich uid cls, storedItem (syncItem enrich uid cls) = syncItem enrich uid cls) := by
  have hpr : ∀ enrich uid cls,
      (syncItem enrich uid cls).priority = priorityMap ((cls.priority).getD 1) :=
    fun _ _ _ => rfl
  have hpos : ∀ p : Int, 1 ≤ priorityMap p :=
    fun p => le_min (le_max_right _ _) (by norm_num)
  have hstored : ∀ enrich uid cls,
      storedItem (syncItem enrich uid cls) = syncItem enrich uid cls := by
    intro enrich uid cls
    unfold storedItem
    have h0 : ¬ (syncItem enrich uid cls).priority = 0 := by
      have := hpos ((cls.priority).getD 1)
      rw [← hpr enrich uid cls] at this
      omega
    rw [if_neg h0]
  refine ⟨fun _ => rfl, hpr, fun p _ _ => ⟨hpos p, min_le_right _ _⟩,
    ⟨by decide, by decide, by decide, by decide, by decide⟩, ?_, ?_, hstored⟩
  · intro enrich uid st cls h1 h2 hl
    simp only [syncStep, hl]
    rw [if_neg (show ¬ ("todo").data = ("noise").data by decide)]
    simp only [if_true]
    unfold DBState.create_task
    rw [createIn_available _ _ _ h1 h2]
    dsimp only
    split <;> simp [tasksTable]
  · intro enrich uid st cls h1 h2 hl
    simp only [syncStep, hl]
    rw [if_neg (show ¬ ("followup").data = ("noise").data by decide),
        if_neg (show ¬ ("followup").data = ("todo").data by decide)]
    simp only [if_true]
    unfold DBState.create_followup
    rw [createIn_available _ _ _ h1 h2]
    dsimp only
    split <;> simp [followupsTable]

theorem sync_priority_mapping_witness :
    (1 ≤ priorityMap 7 ∧ priorityMap 7 ≤ 5) ∧
    (syncStep enrichAbsent 7 stUp clsTodo7).db.tasks
      = stUp.db.tasks ++ [⟨stUp.db.nextId, storedItem (syncItem enrichAbsent 7 clsTodo7)⟩] :=
  ⟨sync_priority_mapping.2.2.1 7 (by decide) (by decide),
   sync_priority_mapping.2.2.2.2.1 enrichAbsent 7 stUp clsTodo7 rfl rfl rfl⟩

/-- C2: a record labelled `noise` creates no WorkItem and contributes
    nothing, on the pull-sync path (the loop state — store contents, both
    created counts and the error list — is unchanged) and on the
    push-webhook path (the result lists are unchanged). -/
theorem noise_never_creates :
    (∀ enrich uid st cls, lowerStr ((cls.label).getD []) = ("noise").data →
      syncStep enrich uid st cls = st) ∧
    (∀ now uid result m, m.classification = some (("noise").data) →
      processOne now uid result m = result) := by
  constructor
  · intro enrich uid st cls hl
    simp only [syncStep, hl, if_true]
  · intro now uid result m hm
    unfold processOne
    rcases hp : parseIncomingMessage m with _ | im
    · rfl
    · obtain ⟨⟨cl, hcl, hof⟩, -, -⟩ := parse_fields hp
      rw [hm] at hcl
      injection hcl with e
      subst e
      have hnoise : Classification.ofString (("noise").data) = some Classification.noise := by
        decide
      rw [hnoise] at hof
      injection hof with e2
      simp [← e2]

theorem noise_never_creates_witness :
    syncStep enrichAbsent 7 stUp ⟨some (("noise").data), none, none, some 9⟩ = stUp ∧
    processOne ⟨2026, 10, 12, 5⟩ 7 ⟨[], [], []⟩
      ⟨some (("id1").data), some (("email").data), none, some (("a").data),
       some (("noise").data), some (("x").data), some 3⟩ = ⟨[], [], []⟩ :=
  ⟨noise_never_creates.1 enrichAbsent 7 stUp _ rfl,
   noise_never_creates.2 ⟨2026, 10, 12, 5⟩ 7 ⟨[], [], []⟩ _ rfl⟩

/-- C8: when the pool is absent and every initialization attempt fails,
    `_get_connection` returns `None` (never raises), and every repository
    operation on the three tables returns its no-effect failure value:
    `None` for create and get-by-id, `False` for update and delete, and
    `([], 0)` for the filtered list. -/
theorem pool_failure_degraded (db : DBState) (hp : db.pool = none)
    (hf : ∀ k, db.attempt k = false) :
    (db.getConnection).1 = none ∧
    (∀ t, (db.create_task t).1 = none) ∧ (∀ i, (db.get_task i).1 = none) ∧
    (∀ i u, (db.update_task i u).1 = false) ∧ (∀ i, (db.delete_task i).1 = false) ∧
    (∀ uid s mp l o, (db.get_tasks uid s mp l o).1 = ([], 0)) ∧
    (∀ t, (db.create_todo t).1 = none) ∧ (∀ i, (db.get_todo i).1 = none) ∧
    (∀ i u, (db.update_todo i u).1 = false) ∧ (∀ i, (db.delete_todo i).1 = false) ∧
    (∀ uid s mp l o, (db.get_todos uid s mp l o).1 = ([], 0)) ∧
    (∀ t, (db.create_followup t).1 = none) ∧ (∀ i, (db.get_followup i).1 = none) ∧
    (∀ i u, (db.update_followup i u).1 = false) ∧ (∀ i, (db.delete_followup i).1 = false) ∧
    (∀ uid s mp l o, (db.get_followups uid s mp l o).1 = ([], 0)) := by
  have h := getConnection_down hp hf
  exact ⟨h,
    fun t => createIn_down _ _ t h, fun i => getByIdIn_down _ _ i h,
    fun i u => updateIn_down _ _ i u h, fun i => deleteIn_down _ _ i h,
    fun uid s mp l o => listIn_down _ _ uid s mp l o h,
    fun t => createIn_down _ _ t h, fun i => getByIdIn_down _ _ i h,
    fun i u => updateIn_down _ _ i u h, fun i => deleteIn_down _ _ i h,
    fun uid s mp l o => listIn_down _ _ uid s mp l o h,
    fun t => createIn_down _ _ t h, fun i => getByIdIn_down _ _ i h,
    fun i u => updateIn_down _ _ i u h, fun i => deleteIn_down _ _ i h,
    fun uid s mp l o => listIn_down _ _ uid s mp l o h⟩

theorem pool_failure_degraded_witness :
    (dbDown.getConnection).1 = none ∧
    (dbDown.create_task itemSample).1 = none ∧
    (dbDown.get_task 3).1 = none ∧
    (dbDown.update_task 3 ⟨some (("x").data), none, none, none⟩).1 = false ∧
    (dbDown.delete_task 3).1 = false ∧
    (dbDown.get_tasks 7 none none 10 0).1 = ([], 0) ∧
    (dbDown.create_todo itemSample).1 = none ∧
    (dbDown.get_todos 7 none none 10 0).1 = ([], 0) ∧
    (dbDown.create_followup itemSample).1 = none ∧
    (dbDown.get_followups 7 none none 10 0).1 = ([], 0) := by
  have th := pool_failure_degraded dbDown rfl (fun _ => rfl)
  exact ⟨th.1, th.2.1 itemSample, th.2.2.1 3, th.2.2.2.1 3 _, th.2.2.2.2.1 3,
    th.2.2.2.2.2.1 7 none none 10 0, th.2.2.2.2.2.2.1 itemSample,
    th.2.2.2.2.2.2.2.2.2.2.1 7 none none 10 0,
    th.2.2.2.2.2.2.2.2.2.2.2.1 itemSample,
    th.2.2.2.2.2.2.2.2.2.2.2.2.2.2.2 7 none none 10 0⟩

/-- Parameter names of the repository list functions
    `DatabaseManager.get_tasks` / `get_todos` / `get_followups`
    (src/services/database.py lines 223-230, 464-471, 705-712), `self`
    excluded.  Only `user_id` has no default; `limit` defaults to 10 and
    `offset` to 0, and no bound is enforced on either. -/
def repoListParams : List String := ["user_id", "status", "min_priority", "limit", "offset"]

/-- The repository list parameters that carry no default value. -/
def repoListRequired : List String := ["user_id"]

/-- The `limit` default in the repository list signatures (`limit: int = 10`). -/
def repoListDefaultLimit : Nat := 10

/-- The keyword-argument names of the handler calls
    `db.get_tasks(filters=filters, limit=limit, offset=offset)`
    (src/resources/tasks.py line 94, todo.py line 86, followup.py line 92). -/
def handlerListKwargs : List String := ["filters", "limit", "offset"]

/-- Python keyword-call binding for a call that passes no positional
    arguments: it succeeds exactly when every supplied keyword names a
    declared parameter and every parameter without a default is supplied;
    otherwise the call raises `TypeError`. -/
def callBindsOk (params required kwargs : List String) : Bool :=
  kwargs.all (fun k => params.contains k) && required.all (fun r => kwargs.contains r)

/-- C10: the three list endpoints declare `limit = Query(100, ge=1, le=1000)`
    and `offset = Query(0, ge=0)` — the claimed defaults and bounds — but the
    repository list functions they call default `limit` to 10 with no bound,
    accept no `filters` keyword and require `user_id`, so every handler call
    `db.get_tasks(filters=..., limit=..., offset=...)` fails Python keyword
    binding (`TypeError`) and the validated values never reach a table list
    operation. -/
theorem list_endpoint_repository_mismatch :
    (tasksListParams none none = some (100, 0) ∧
     todosListParams none none = some (100, 0) ∧
     followupsListParams none none = some (100, 0)) ∧
    (validateLimit (some 0) = none ∧ validateLimit (some 1001) = none ∧
     validateOffset (some (-1)) = none) ∧
    repoListDefaultLimit = 10 ∧ ¬ repoListDefaultLimit = 100 ∧
    ("filters" ∉ repoListParams) ∧
    ("user_id" ∉ handlerListKwargs) ∧
    callBindsOk repoListParams repoListRequired handlerListKwargs = false :=
  ⟨⟨rfl, rfl, rfl⟩, ⟨by decide, by decide, by decide⟩, rfl, by decide,
   by decide, by decide, by decide⟩

def inst0 : Instant := ⟨2026, 10, 12, 5⟩

def rawTodoP4 : RawMessage :=
  ⟨some (("id1").data), some (("email").data), none, some (("alice").data),
   some (("todo").data), some (("do the thing").data), some 4⟩

def imTodo4 : IncomingMessage :=
  ⟨("id1").data, MessageType.email, none, ("alice").data, Classification.todo,
   ("do the thing").data, 4⟩

def rawSpam : RawMessage :=
  ⟨some (("id1").data), some (("email").data), none, some (("alice").data),
   some (("spam").data), some (("do the thing").data), some 3⟩

/-- C4 counterexample: a webhook message labelled `todo` with incoming
    priority 4 is persisted with priority 4, while
    `clamp(floor(4 / 2), 1, 5) = 2` — the webhook path does not apply the
    priority mapping. -/
theorem webhook_priority_not_mapped_cex :
    (processClassifications inst0 [rawTodoP4] 7).todos.map (fun t => t.priority) = [4] ∧
    priorityMap 4 = 2 ∧
    ¬ ((processClassifications inst0 [rawTodoP4] 7).todos.map (fun t => t.priority)
        = [priorityMap 4]) := by
  refine ⟨rfl, by decide, fun h => ?_⟩
  rw [show priorityMap 4 = 2 by decide] at h
  have h2 : (processClassifications inst0 [rawTodoP4] 7).todos.map (fun t => t.priority)
      = [4] := rfl
  rw [h2] at h
  exact absurd h (by decide)

/-- C4 amended: the push-webhook path persists the incoming priority
    unchanged on every non-noise message; the schema validation of
    `IncomingMessage` guarantees that this priority already lies in
    `[1, 5]`, and no `clamp(floor(p / 2), 1, 5)` mapping is applied. -/
theorem webhook_priority_passthrough :
    (∀ now uid im, (webhookItem now uid im).priority = im.priority) ∧
    (∀ m im, parseIncomingMessage m = some im → 1 ≤ im.priority ∧ im.priority ≤ 5) ∧
    (∀ now uid result m im, parseIncomingMessage m = some im →
      im.classification ≠ Classification.noise →
      processOne now uid result m =
        (if im.classification = Classification.todo then
          { result with todos := result.todos ++ [webhookItem now uid im] }
         else if im.classification = Classification.followup then
          { result with followups := result.followups ++ [webhookItem now uid im] }
         else
          { result with tasks := result.tasks ++ [webhookItem now uid im] })) := by
  refine ⟨fun _ _ _ => rfl, fun m im hp => (parse_fields hp).2, ?_⟩
  intro now uid result m im hp hn
  unfold processOne
  rw [hp]
  dsimp only
  rw [if_neg hn]

theorem webhook_priority_passthrough_witness :
    processOne inst0 7 ⟨[], [], []⟩ rawTodoP4 =
      ⟨[], [webhookItem inst0 7 imTodo4], []⟩ :=
  webhook_priority_passthrough.2.2 inst0 7 ⟨[], [], []⟩ rawTodoP4 imTodo4
    (by decide) (by decide)

/-- C5 counterexample: a webhook message with the unrecognized label
    `spam` produces no WorkItem of any kind — it fails schema validation
    and is skipped, rather than defaulting to a Task. -/
theorem webhook_unrecognized_label_cex :
    processClassifications inst0 [rawSpam] 7 = ⟨[], [], []⟩ := rfl

/-- C5 amended: on the push-webhook path, a validated `todo` message
    produces a Todo and a validated `followup` message produces a Followup;
    the enum admits no non-noise label besides these two, and a message
    whose label is not a member of the enum fails validation and produces
    nothing (the default-to-Task branch is unreachable). -/
theorem webhook_routing :
    (∀ now uid result m im, parseIncomingMessage m = some im →
      im.classification = Classification.todo →
      processOne now uid result m =
        { result with todos := result.todos ++ [webhookItem now uid im] }) ∧
    (∀ now uid result m im, parseIncomingMessage m = some im →
      im.classification = Classification.followup →
      processOne now uid result m =
        { result with followups := result.followups ++ [webhookItem now uid im] }) ∧
    (∀ c : Classification, c = Classification.todo ∨ c = Classification.followup ∨
      c = Classification.noise) ∧
    (∀ m cl, m.classification = some cl → Classification.ofString cl = none →
      parseIncomingMessage m = none ∧
      ∀ now uid result, processOne now uid result m = result) := by
  refine ⟨?_, ?_, fun c => by cases c <;> simp, ?_⟩
  · intro now uid result m im hp hc
    unfold processOne
    rw [hp]
    dsimp only
    rw [if_neg (by rw [hc]; decide), if_pos hc]
  · intro now uid result m im hp hc
    unfold processOne
    rw [hp]
    dsimp only
    rw [if_neg (by rw [hc]; decide), if_neg (by rw [hc]; decide), if_pos hc]
  · intro m cl hm hcl
    have hnone : parseIncomingMessage m = none := by
      rcases hp : parseIncomingMessage m with _ | im
      · rfl
      · obtain ⟨⟨cl', hcl', hof⟩, -, -⟩ := parse_fields hp
        rw [hm] at hcl'
        injection hcl' with e
        subst e
        rw [hcl] at hof
        exact absurd hof (by simp)
    refine ⟨hnone, fun now uid result => ?_⟩
    unfold processOne
    rw [hnone]

theorem webhook_routing_witness :
    (processOne inst0 7 ⟨[], [], []⟩ rawTodoP4 =
      ⟨[], [webhookItem inst0 7 imTodo4], []⟩) ∧
    parseIncomingMessage rawSpam = none ∧
    processOne inst0 7 ⟨[], [], []⟩ rawSpam = ⟨[], [], []⟩ := by
  have h1 := webhook_routing.1 inst0 7 ⟨[], [], []⟩ rawTodoP4 imTodo4
    (by decide) rfl
  have h2 := webhook_routing.2.2.2 rawSpam (("spam").data) rfl (by decide)
  exact ⟨h1, h2.1, h2.2 inst0 7 ⟨[], [], []⟩⟩

def clsRec (mid : String) : ClsRecord :=
  ⟨some (("todo").data), some (("cls-abcdefgh").data), some mid.data, some 2⟩

def enrichFail2 : Str → Option EnrichedMsg := fun m =>
  if m = ("m2").data then none
  else some ⟨some (("carol").data), some (("subj").data), none, some (("email").data)⟩

def syncScenario : SyncResult :=
  syncClassifications enrichFail2 7 dbUp [clsRec "m1", clsRec "m2", clsRec "m3"]

/-- C7: when enrichment fails for a record on the pull-sync path, the
    record proceeds with `sender=""`, `subject=None`, `type=email` and the
    default title, and nothing is appended to the error list; with 3
    records whose middle enrichment call fails, the sync still reports
    `classifications_processed = 3` with all three records persisted —
    records 1 and 3 with their enriched fields, record 2 with the empty
    enrichment. -/
theorem enrichment_failure_fallback :
    (∀ enrich uid cls, enrich ((cls.msg_id).getD []) = none →
      (syncItem enrich uid cls).sender = [] ∧
      (syncItem enrich uid cls).subject = none ∧
      (syncItem enrich uid cls).message_type = MessageType.email ∧
      (syncItem enrich uid cls).title
        = ("Task from classification ").data ++ ((cls.cls_id).getD []).take 8) ∧
    (∀ enrich uid st cls, st.db.pool = some () → st.db.connOk = true →
      st.db.nextId ≠ 0 → (syncStep enrich uid st cls).errors = st.errors) ∧
    (syncScenario.classifications_processed = 3 ∧
     syncScenario.tasks_created = 3 ∧
     syncScenario.errors = [] ∧
     syncScenario.db.tasks.map (fun row => row.item.sender)
       = [("carol").data, [], ("carol").data] ∧
     syncScenario.db.tasks.map (fun row => row.item.title)
       = [("subj").data, ("Task from classification cls-abcd").data, ("subj").data] ∧
     syncScenario.db.tasks.map (fun row => row.item.subject)
       = [some (("subj").data), none, some (("subj").data)]) := by
  refine ⟨?_, ?_, rfl, rfl, rfl, rfl, rfl, rfl⟩
  · intro enrich uid cls h
    unfold syncItem
    dsimp only
    rw [h]
    exact ⟨rfl, rfl, rfl, rfl⟩
  · intro enrich uid st cls h1 h2 h3
    simp only [syncStep]
    split
    · rfl
    · split
      · unfold DBState.create_task
        rw [createIn_available _ _ _ h1 h2]
        dsimp only
        rw [if_pos h3]
      · split
        · unfold DBState.create_followup
          rw [createIn_available _ _ _ h1 h2]
          dsimp only
          rw [if_pos h3]
        · rfl

theorem enrichment_failure_fallback_witness :
    ((syncItem enrichAbsent 7 clsTodo7).sender = [] ∧
     (syncItem enrichAbsent 7 clsTodo7).subject = none ∧
     (syncItem enrichAbsent 7 clsTodo7).message_type = MessageType.email ∧
     (syncItem enrichAbsent 7 clsTodo7).title
       = ("Task from classification ").data ++ (((clsTodo7.cls_id)).getD []).take 8) ∧
    (syncStep enrichAbsent 7 stUp clsTodo7).errors = stUp.errors :=
  ⟨enrichment_failure_fallback.1 enrichAbsent 7 clsTodo7 rfl,
   enrichment_failure_fallback.2.1 enrichAbsent 7 stUp clsTodo7 rfl rfl (by decide)⟩

/-- C9: the due-date extractor scans the lowercased text against the fixed
    keyword table in insertion order and returns `now` plus the first
    matching offset; with no keyword it tries the `M/D` pattern, rolling an
    already-passed date into the next year; with neither, the due date is
    absent.  `"Please reply ASAP"` gives now+0 and `"finish this week"`
    gives now+7. -/
theorem due_date_extraction :
    (∀ now, extractDueDate now (("Please reply ASAP").data) = some (DueDate.fromNow 0)) ∧
    (∀ now, extractDueDate now (("finish this week").data) = some (DueDate.fromNow 7)) ∧
    (dueDateKeywords =
      [(("today").data, 0), (("tomorrow").data, 1), (("asap").data, 0), (("urgent").data, 0),
       (("this week").data, 7), (("next week").data, 14), (("eod").data, 0), (("eow").data, 7)]) ∧
    (∀ now text off, firstKeywordHit (lowerStr text) dueDateKeywords = some off →
      extractDueDate now text = some (DueDate.fromNow off)) ∧
    (∀ now text, firstKeywordHit (lowerStr text) dueDateKeywords = none →
      searchMD none text = none → extractDueDate now text = none) ∧
    (∀ (now : Instant) text m d, firstKeywordHit (lowerStr text) dueDateKeywords = none →
      searchMD none text = some (m, d) → validDate now.year m d = true →
      beforeNow now m d = true → validDate (now.year + 1) m d = true →
      extractDueDate now text = some (DueDate.onDate (now.year + 1) m d)) ∧
    (∀ (now : Instant) text m d, firstKeywordHit (lowerStr text) dueDateKeywords = none →
      searchMD none text = some (m, d) → validDate now.year m d = true →
      beforeNow now m d = false →
      extractDueDate now text = some (DueDate.onDate now.year m d)) := by
  refine ⟨fun now => rfl, fun now => rfl, rfl, ?_, ?_, ?_, ?_⟩
  · intro now text off h
    unfold extractDueDate
    dsimp only
    rw [h]
  · intro now text h1 h2
    unfold extractDueDate
    dsimp only
    rw [h1, h2]
  · intro now text m d h1 h2 hv hb hv2
    unfold extractDueDate
    dsimp only
    rw [h1, h2]
    simp only [hv, hb, hv2, if_true]
  · intro now text m d h1 h2 hv hb
    unfold extractDueDate
    dsimp only
    rw [h1, h2]
    simp only [hv, hb, if_true, Bool.false_eq_true, if_false]

theorem due_date_extraction_witness :
    extractDueDate inst0 (("ship it by 3/15 sharp").data)
      = some (DueDate.onDate (inst0.year + 1) 3 15) ∧
    extractDueDate inst0 (("nothing to see").data) = none :=
  ⟨due_date_extraction.2.2.2.2.2.1 inst0 (("ship it by 3/15 sharp").data) 3 15
     (by decide) (by decide) (by decide) (by decide) (by decide),
   due_date_extraction.2.2.2.2.1 inst0 (("nothing to see").data)
     (by decide) (by decide)⟩

/-! ## Title-cleanup lemmas -/

theorem truncate200_length (x : Str) : (truncate200 x).length ≤ 200 := by
  unfold truncate200
  split
  · rw [List.length_append, List.length_take]
    have h3 : (("...").data).length = 3 := rfl
    rw [h3]
    omega
  · omega

theorem cleanTaskTitle_length (t : Str) (c : Classification) :
    (cleanTaskTitle t c).length ≤ 200 :=
  truncate200_length _

theorem truncate200_marker (x : Str) (h : 200 < x.length) :
    truncate200 x = x.take 197 ++ ("...").data := by
  unfold truncate200
  rw [if_pos h]

theorem lowerStr_capFirst (s : Str) : lowerStr (capFirst s) = lowerStr s := by
  cases s with
  | nil => rfl
  | cons c cs => simp [capFirst, lowerStr, toLower_toUpper]

theorem prefix_lowerStr_truncate {p x : Str} (h : p <+: lowerStr x)
    (hl : p.length ≤ 197) : p <+: lowerStr (truncate200 x) := by
  unfold truncate200
  split
  · unfold lowerStr
    rw [List.map_append, List.map_take]
    exact (List.prefix_take_iff.mpr ⟨h, hl⟩).trans (List.prefix_append _ _)
  · exact h

/-- Every followup title produced by the cleanup starts with `reply`
    case-insensitively, so a second pass never prepends `"Reply: "` again. -/
theorem clean_followup_starts_reply (t : Str) :
    ("reply").data.isPrefixOf (lowerStr (cleanTaskTitle t Classification.followup)) = true := by
  rw [isPrefixOf_iff]
  unfold cleanTaskTitle replyAdjust
  rw [if_pos rfl]
  rcases hb : ("reply").data.isPrefixOf (lowerStr (removePrefixes (stripStr t))) with _ | _
  · rw [if_neg Bool.false_ne_true]
    have hcap : capFirst (("Reply: ").data ++ removePrefixes (stripStr t))
        = ("Reply: ").data ++ removePrefixes (stripStr t) := rfl
    rw [hcap]
    refine prefix_lowerStr_truncate ?_ (by decide)
    unfold lowerStr
    rw [List.map_append]
    exact (show ("reply").data <+: lowerStr (("Reply: ").data) by decide).trans
      (List.prefix_append _ _)
  · rw [if_pos rfl]
    have hb' : ("reply").data.isPrefixOf
        (lowerStr (capFirst (removePrefixes (stripStr t)))) = true := by
      rw [lowerStr_capFirst]
      exact hb
    exact prefix_lowerStr_truncate (isPrefixOf_iff.mp hb') (by decide)

/-- The marker-stripping loop is the identity when the text starts with
    none of the listed markers. -/
theorem removePrefixes_id {t : Str}
    (h : ∀ p ∈ prefixesToRemove, p.isPrefixOf (lowerStr t) = false) :
    removePrefixes t = t := by
  have step : ∀ (ct p : Str), p.isPrefixOf (lowerStr ct) = false →
      (if p.isPrefixOf (lowerStr ct) then stripStr (ct.drop p.length) else ct) = ct := by
    intro ct p hp
    rw [hp, if_neg Bool.false_ne_true]
  have h1 := h (("task:").data) (by simp [prefixesToRemove])
  have h2 := h (("todo:").data) (by simp [prefixesToRemove])
  have h3 := h (("action item:").data) (by simp [prefixesToRemove])
  have h4 := h (("follow up:").data) (by simp [prefixesToRemove])
  have h5 := h (("followup:").data) (by simp [prefixesToRemove])
  have h6 := h (("reply to").data) (by simp [prefixesToRemove])
  show List.foldl _ t prefixesToRemove = t
  rw [show prefixesToRemove = [("task:").data, ("todo:").data, ("action item:").data,
        ("follow up:").data, ("followup:").data, ("reply to").data] from rfl]
  simp only [List.foldl_cons, List.foldl_nil]
  rw [step t _ h1, step t _ h2, step t _ h3, step t _ h4, step t _ h5, step t _ h6]

theorem capFirst_truncate_capFirst (r : Str) :
    capFirst (truncate200 (capFirst r)) = truncate200 (capFirst r) := by
  cases r with
  | nil => rfl
  | cons c0 cs =>
    show capFirst (truncate200 (c0.toUpper :: cs)) = truncate200 (c0.toUpper :: cs)
    unfold truncate200
    split
    · rw [show (197 : Nat) = 196 + 1 from rfl, List.take_succ_cons, List.cons_append]
      show c0.toUpper.toUpper :: _ = _
      rw [toUpper_toUpper]
    · show c0.toUpper.toUpper :: cs = _
      rw [toUpper_toUpper]

theorem truncate200_clean (t : Str) (c : Classification) :
    truncate200 (cleanTaskTitle t c) = cleanTaskTitle t c := by
  unfold truncate200
  rw [if_neg (by have := cleanTaskTitle_length t c; omega)]

/-- C6 counterexample: title cleanup is not idempotent.  Cleaning
    `"task: task: hello"` (classification `todo`) strips only the first
    `task:` marker and yields `"Task: hello"`; cleaning that output again
    strips the remaining marker and yields `"Hello"`. -/
theorem clean_title_not_idempotent_cex :
    cleanTaskTitle (cleanTaskTitle (("task: task: hello").data) Classification.todo)
        Classification.todo
      ≠ cleanTaskTitle (("task: task: hello").data) Classification.todo := by decide

/-- C6 amended: a followup title always starts with `reply`
    case-insensitively, so it never receives a second `"Reply: "` prefix;
    and cleanup is idempotent on every input whose cleaned output has no
    leading/trailing whitespace and does not itself start with one of the
    removable markers. -/
theorem clean_title_conditional_idempotency :
    (∀ t, ("reply").data.isPrefixOf
        (lowerStr (cleanTaskTitle t Classification.followup)) = true) ∧
    (∀ t c, stripStr (cleanTaskTitle t c) = cleanTaskTitle t c →
      (∀ p ∈ prefixesToRemove, p.isPrefixOf (lowerStr (cleanTaskTitle t c)) = false) →
      cleanTaskTitle (cleanTaskTitle t c) c = cleanTaskTitle t c) := by
  refine ⟨clean_followup_starts_reply, ?_⟩
  intro t c hstrip hpre
  have e1 : cleanTaskTitle (cleanTaskTitle t c) c
      = truncate200 (capFirst (replyAdjust
          (removePrefixes (stripStr (cleanTaskTitle t c))) c)) := rfl
  rw [e1, hstrip, removePrefixes_id hpre]
  have hreply : replyAdjust (cleanTaskTitle t c) c = cleanTaskTitle t c := by
    unfold replyAdjust
    by_cases hc : c = Classification.followup
    · subst hc
      rw [if_pos rfl, if_pos (clean_followup_starts_reply t)]
    · rw [if_neg hc]
  rw [hreply]
  have hcap : capFirst (cleanTaskTitle t c) = cleanTaskTitle t c :=
    capFirst_truncate_capFirst (replyAdjust (removePrefixes (stripStr t)) c)
  rw [hcap, truncate200_clean]

theorem clean_title_conditional_idempotency_witness :
    cleanTaskTitle (cleanTaskTitle (("hello").data) Classification.todo)
        Classification.todo
      = cleanTaskTitle (("hello").data) Classification.todo :=
  clean_title_conditional_idempotency.2 (("hello").data) Classification.todo
    (by decide) (by decide)

/-! ## C3 support -/

theorem syncItem_fallback_title_short (enrich : Str → Option EnrichedMsg)
    (uid : Int) (cls : ClsRecord)
    (h : truthy ((enrich ((cls.msg_id).getD [])).bind (fun m => m.subject)) = false) :
    (syncItem enrich uid cls).title.length ≤ 103 := by
  unfold syncItem
  dsimp only
  rw [h, if_neg Bool.false_ne_true]
  split
  · rw [List.length_append, List.length_take]
    split
    · have e3 : (("...").data).length = 3 := rfl
      rw [e3]
      omega
    · rw [List.length_nil]
      omega
  · rw [List.length_append, List.length_take]
    have e25 : (("Task from classification ").data).length = 25 := rfl
    rw [e25]
    omega

theorem syncItem_subject_title (enrich : Str → Option EnrichedMsg) (uid : Int)
    (cls : ClsRecord) (m : EnrichedMsg) (s : Str)
    (hm : enrich ((cls.msg_id).getD []) = some m) (hs : m.subject = some s)
    (hne : s ≠ []) : (syncItem enrich uid cls).title = s := by
  rcases s with _ | ⟨a, l⟩
  · exact absurd rfl hne
  · unfold syncItem
    dsimp only
    rw [hm]
    rw [show (Option.bind (some m) fun x => x.subject) = m.subject from rfl, hs]
    rfl

def enrichLongSubject : Str → Option EnrichedMsg :=
  fun _ => some ⟨some (("bob").data), some (List.replicate 201 'a'), none,
    some (("email").data)⟩

set_option maxRecDepth 4000 in
/-- C3 counterexample: on the pull-sync path a subject-derived title is
    persisted untruncated — an enriched subject of 201 characters yields a
    persisted Task whose title has 201 characters, exceeding the claimed
    200-character cap. -/
theorem sync_title_unbounded_cex :
    (syncClassifications enrichLongSubject 7 dbUp [clsTodo7]).db.tasks.map
        (fun row => row.item.title.length) = [201] ∧
    ¬ (201 ≤ 200) :=
  ⟨rfl, by decide⟩

/-- C3 amended: every WorkItem persisted by the push-webhook path carries a
    title of at most 200 characters, with `take 197 ++ "..."` whenever the
    cleaned text exceeded 200; on the pull-sync path, body-derived and
    default titles are at most 103 characters, but a non-empty enriched
    subject is persisted as the title verbatim, with no length cap. -/
theorem title_truncation_amended :
    (∀ t c, (cleanTaskTitle t c).length ≤ 200) ∧
    (∀ t c, 200 < (capFirst (replyAdjust (removePrefixes (stripStr t)) c)).length →
      cleanTaskTitle t c
        = (capFirst (replyAdjust (removePrefixes (stripStr t)) c)).take 197
            ++ ("...").data) ∧
    (∀ now uid im, (webhookItem now uid im).title
        = cleanTaskTitle im.task im.classification) ∧
    (∀ enrich uid cls,
      truthy ((enrich ((cls.msg_id).getD [])).bind (fun m => m.subject)) = false →
      (syncItem enrich uid cls).title.length ≤ 103) ∧
    (∀ enrich uid cls m s, enrich ((cls.msg_id).getD []) = some m →
      m.subject = some s → s ≠ [] → (syncItem enrich uid cls).title = s) :=
  ⟨cleanTaskTitle_length, fun _ _ h => truncate200_marker _ h, fun _ _ _ => rfl,
   syncItem_fallback_title_short, syncItem_subject_title⟩

set_option maxRecDepth 4000 in
theorem title_truncation_amended_witness :
    cleanTaskTitle (List.replicate 300 'x') Classification.todo
      = (capFirst (replyAdjust (removePrefixes (stripStr (List.replicate 300 'x')))
          Classification.todo)).take 197 ++ ("...").data ∧
    (syncItem enrichLongSubject 7 clsTodo7).title = List.replicate 201 'a' :=
  ⟨title_truncation_amended.2.1 (List.replicate 300 'x') Classification.todo
     (by decide),
   title_truncation_amended.2.2.2.2 enrichLongSubject 7 clsTodo7
     ⟨some (("bob").data), some (List.replicate 201 'a'), none, some (("email").data)⟩
     (List.replicate 201 'a') rfl rfl (by decide)⟩

end MS3
